import Mathlib

/-!
Shallow embedding of the contact-directory service in `src/main.py`
(a FastAPI application over a MongoDB collection), together with proofs
about its operations.

Modelling conventions:
* A MongoDB `ObjectId` is modelled as a `Nat`; `str(ObjectId)` in
  `contact_helper` is modelled as the identity on that `Nat`.  Identifier
  well-formedness (`InvalidId`) is outside the claims and not modelled.
* The collection is a list of stored documents plus a counter supplying
  the identifier the storage assigns to the next insert (`insert_one`).
  `find_one` returns the first matching document, `update_one` / `delete_one`
  act on the first matching document, as in MongoDB.
* Python `datetime` values (UTC) are modelled as a calendar date plus a
  time-of-day in seconds; comparison and `timedelta` addition go through
  the total number of seconds on the proleptic Gregorian timeline.
* The stored `birthday` is written via
  `datetime.combine(date, datetime.min.time())`, i.e. always a midnight
  datetime, so documents carry the plain date; the aggregation operators
  `$month` / `$dayOfMonth` read its month and day fields, and
  `$dateFromParts` builds a midnight datetime, carrying an out-of-range
  day value over into the next month exactly as its day arithmetic does.
* MongoDB `$regex` with option `"i"`: the search string is used as a
  pattern without escaping.  The model interprets the fragment of the
  pattern language these proofs exercise: `.` matches any character and
  every other character matches itself case-insensitively.
* The routes declare `response_model=Contact` (or a list of `Contact`):
  FastAPI filters the handler's return value down to that model's six
  fields, so the `id` key `contact_helper` put into the dict is dropped
  from the HTTP response.  The handler functions model the Python
  coroutines' return values; `respFilter` and the `_route` definitions
  model the caller-visible responses after this filtering.
-/

/-- Proleptic Gregorian leap-year rule. -/
def isLeap (y : Nat) : Bool :=
  (y % 4 == 0 && y % 100 != 0) || y % 400 == 0

/-- Days in the months strictly before month `m` of year `y`. -/
def daysBeforeMonth (y m : Nat) : Nat :=
  let feb := if isLeap y then 29 else 28
  match m with
  | 1 => 0
  | 2 => 31
  | 3 => 31 + feb
  | 4 => 62 + feb
  | 5 => 92 + feb
  | 6 => 123 + feb
  | 7 => 153 + feb
  | 8 => 184 + feb
  | 9 => 215 + feb
  | 10 => 245 + feb
  | 11 => 276 + feb
  | _ => 306 + feb

/-- Days in the years strictly before year `y` (proleptic Gregorian). -/
def daysBeforeYear (y : Nat) : Nat :=
  let p := y - 1
  365 * p + p / 4 - p / 100 + p / 400

/-- A calendar date (no time component), as Python `datetime.date`. -/
structure Date where
  year : Nat
  month : Nat
  day : Nat
deriving DecidableEq, Repr

/-- Day number of a date on the proleptic Gregorian timeline (day 1 is
Jan 1 of year 1). -/
def rataDie (d : Date) : Nat :=
  daysBeforeYear d.year + daysBeforeMonth d.year d.month + d.day

/-- Day number built by MongoDB `$dateFromParts` from raw year/month/day
parts.  An out-of-range `day` carries over into the following month
(e.g. day 29 of February in a non-leap year lands on March 1), matching
the `$dateFromParts` day arithmetic. -/
def dateFromPartsDay (y m d : Nat) : Nat :=
  daysBeforeYear y + daysBeforeMonth y m + d

/-- A Python `datetime` (UTC): a date with a time of day in seconds. -/
structure DateTime where
  date : Date
  tod : Nat
deriving DecidableEq, Repr

/-- Total seconds of a datetime on the timeline; `datetime` comparison and
`timedelta` addition are comparison and addition of this number. -/
def DateTime.toSec (t : DateTime) : Nat :=
  rataDie t.date * 86400 + t.tod

/-- The request/response schema `Contact` (the pydantic model): the caller
supplies these fields on create and update. -/
structure ContactInput where
  first_name : String
  last_name : String
  email : String
  phone : String
  birthday : Date
  additional_data : Option String
deriving DecidableEq, Repr

/-- A document stored in the `contacts` collection: the input fields plus
the `_id` the storage assigned. -/
structure StoredContact where
  id : Nat
  first_name : String
  last_name : String
  email : String
  phone : String
  birthday : Date
  additional_data : Option String
deriving DecidableEq, Repr

/-- The response produced by `contact_helper`. -/
structure ContactOut where
  id : Nat
  first_name : String
  last_name : String
  email : String
  phone : String
  birthday : Date
  additional_data : Option String
deriving DecidableEq, Repr

/-- `contact_helper` in `src/main.py`: projects a stored document onto the
response schema (`str(ObjectId)` modelled as the identifier itself; the
stored midnight datetime's `.date()` is the stored date). -/
def contact_helper (c : StoredContact) : ContactOut :=
  { id := c.id
    first_name := c.first_name
    last_name := c.last_name
    email := c.email
    phone := c.phone
    birthday := c.birthday
    additional_data := c.additional_data }

/-- The document `insert_one` writes for a given input, once storage has
assigned identifier `i`. -/
def mkStored (i : Nat) (inp : ContactInput) : StoredContact :=
  { id := i
    first_name := inp.first_name
    last_name := inp.last_name
    email := inp.email
    phone := inp.phone
    birthday := inp.birthday
    additional_data := inp.additional_data }

/-- The mutable fields of a stored document, as an input value (what the
`$set` document of `update_contact` holds when it equals the document). -/
def fieldsOf (c : StoredContact) : ContactInput :=
  { first_name := c.first_name
    last_name := c.last_name
    email := c.email
    phone := c.phone
    birthday := c.birthday
    additional_data := c.additional_data }

/-- The `contacts` collection plus the identifier storage assigns next. -/
structure Db where
  records : List StoredContact
  nextId : Nat
deriving DecidableEq, Repr

/-- Errors the endpoints raise (`HTTPException`): 400 with the duplicate
email message, 400 with the duplicate phone message, 404 not found. -/
inductive ApiErr where
  | emailInUse
  | phoneInUse
  | notFound
deriving DecidableEq, Repr

deriving instance DecidableEq for Except

/-- `create_contact` (POST /contacts/): reject a duplicate email, then a
duplicate phone; otherwise insert the document, re-fetch it by the
inserted id and return its projection.  The final `none` branch is
unreachable (the document was just inserted). -/
def create_contact (db : Db) (inp : ContactInput) :
    Except ApiErr ContactOut × Db :=
  if (db.records.find? (fun r => decide (r.email = inp.email))).isSome then
    (Except.error ApiErr.emailInUse, db)
  else if (db.records.find? (fun r => decide (r.phone = inp.phone))).isSome then
    (Except.error ApiErr.phoneInUse, db)
  else
    let inserted := mkStored db.nextId inp
    let db' : Db := { records := db.records ++ [inserted], nextId := db.nextId + 1 }
    match db'.records.find? (fun r => decide (r.id = db.nextId)) with
    | some c => (Except.ok (contact_helper c), db')
    | none => (Except.error ApiErr.notFound, db')

/-- A token of the modelled `$regex` pattern fragment: `.` or a literal
character. -/
inductive RegexTok where
  | dot
  | lit (c : Char)
deriving DecidableEq, Repr

/-- Read the search string as a pattern: `.` becomes the any-character
token, every other character a literal. -/
def parsePat (s : String) : List RegexTok :=
  s.data.map (fun c => if c = '.' then RegexTok.dot else RegexTok.lit c)

/-- One token against one character, under `$options: "i"`. -/
def tokMatch (t : RegexTok) (c : Char) : Bool :=
  match t with
  | RegexTok.dot => true
  | RegexTok.lit a => a.toLower == c.toLower

/-- The pattern against a prefix of the text. -/
def matchHere : List RegexTok → List Char → Bool
  | [], _ => true
  | _ :: _, [] => false
  | t :: ts, c :: cs => tokMatch t c && matchHere ts cs

/-- The pattern somewhere in the text (MongoDB `$regex` is an unanchored
search). -/
def regexFind (ts : List RegexTok) : List Char → Bool
  | [] => matchHere ts []
  | c :: cs => matchHere ts (c :: cs) || regexFind ts cs

/-- The `$or` filter `list_contacts` builds for a search string. -/
def searchPred (s : String) (c : StoredContact) : Bool :=
  regexFind (parsePat s) c.first_name.data
    || regexFind (parsePat s) c.last_name.data
    || regexFind (parsePat s) c.email.data

/-- `list_contacts` (GET /contacts/): Python `if search:` is false for an
absent parameter and for the empty string, leaving the match-all query. -/
def list_contacts (db : Db) (search : Option String) : List ContactOut :=
  let keep : StoredContact → Bool := fun c =>
    match search with
    | none => true
    | some s => if s.isEmpty then true else searchPred s c
  (db.records.filter keep).map contact_helper

/-- `get_contact` (GET /contacts/id): return the projection of the
document with that id, 404 when there is none. -/
def get_contact (db : Db) (i : Nat) : Except ApiErr ContactOut :=
  match db.records.find? (fun r => decide (r.id = i)) with
  | some c => Except.ok (contact_helper c)
  | none => Except.error ApiErr.notFound

/-- `update_one` with a `$set` of all mutable fields: replace the fields
of the first document whose id matches. -/
def setFields (i : Nat) (inp : ContactInput) :
    List StoredContact → List StoredContact
  | [] => []
  | c :: cs =>
    if c.id = i then mkStored c.id inp :: cs else c :: setFields i inp cs

/-- `update_contact` (PUT /contacts/id): duplicate checks excluding the
record itself (`_id: $ne`), then `update_one`; the handler treats
`modified_count == 1` as success, and MongoDB reports `modified_count` 0
when the `$set` leaves the matched document unchanged, so a matched but
unmodified document also takes the 404 branch. -/
def update_contact (db : Db) (i : Nat) (inp : ContactInput) :
    Except ApiErr ContactOut × Db :=
  if (db.records.find? (fun r => decide (r.email = inp.email ∧ r.id ≠ i))).isSome then
    (Except.error ApiErr.emailInUse, db)
  else if (db.records.find? (fun r => decide (r.phone = inp.phone ∧ r.id ≠ i))).isSome then
    (Except.error ApiErr.phoneInUse, db)
  else
    match db.records.find? (fun r => decide (r.id = i)) with
    | none => (Except.error ApiErr.notFound, db)
    | some c =>
      if fieldsOf c = inp then
        (Except.error ApiErr.notFound, db)
      else
        let db' : Db := { records := setFields i inp db.records, nextId := db.nextId }
        match db'.records.find? (fun r => decide (r.id = i)) with
        | some c' => (Except.ok (contact_helper c'), db')
        | none => (Except.error ApiErr.notFound, db')

/-- `delete_one` on an id filter: drop the first document whose id
matches. -/
def eraseFirstById (i : Nat) : List StoredContact → List StoredContact
  | [] => []
  | c :: cs => if c.id = i then cs else c :: eraseFirstById i cs

/-- `delete_contact` (DELETE /contacts/id): `deleted_count` is 1 exactly
when a document matched. -/
def delete_contact (db : Db) (i : Nat) : Except ApiErr Unit × Db :=
  if (db.records.find? (fun r => decide (r.id = i))).isSome then
    (Except.ok (), { records := eraseFirstById i db.records, nextId := db.nextId })
  else
    (Except.error ApiErr.notFound, db)

/-- The midnight datetime `$dateFromParts` builds in the aggregation:
`today`'s year with the stored birthday's month and day, in seconds. -/
def projSec (yearNow : Nat) (b : Date) : Nat :=
  dateFromPartsDay yearNow b.month b.day * 86400

/-- The `$match` condition of the aggregation: the projected midnight
datetime lies between `today` (`datetime.utcnow()`, with its time of day)
and `today + timedelta(days=7)`, both inclusive. -/
def inWindow (now : DateTime) (c : StoredContact) : Bool :=
  decide (now.toSec ≤ projSec now.date.year c.birthday
    ∧ projSec now.date.year c.birthday ≤ now.toSec + 7 * 86400)

/-- `upcoming_birthdays` (GET /contacts/upcoming-birthdays/): the
aggregation keeps the documents passing `inWindow` and projects them. -/
def upcoming_birthdays (db : Db) (now : DateTime) : List ContactOut :=
  (db.records.filter (inWindow now)).map contact_helper

/-- Case-insensitive substring containment, modelled from the spec:
`contains search as a case-insensitive substring`.  Spec-side notion,
compared against the `$regex` behaviour of the code. -/
def startsWithCI : List Char → List Char → Bool
  | [], _ => true
  | _ :: _, [] => false
  | a :: as, b :: bs => (a.toLower == b.toLower) && startsWithCI as bs

/-- Modelled from the spec: the pattern occurs in the text as a
case-insensitive substring. -/
def substrCI (pat : List Char) : List Char → Bool
  | [] => startsWithCI pat []
  | c :: cs => startsWithCI pat (c :: cs) || substrCI pat cs

/-- The response schema the routes declare (`response_model=Contact`):
the pydantic `Contact` model of lines 30-36 has no id field. -/
structure ContactResp where
  first_name : String
  last_name : String
  email : String
  phone : String
  birthday : Date
  additional_data : Option String
deriving DecidableEq, Repr

/-- FastAPI `response_model=Contact` filtering: the handler's id-bearing
dict is projected onto the declared model's fields, dropping the id. -/
def respFilter (o : ContactOut) : ContactResp :=
  { first_name := o.first_name
    last_name := o.last_name
    email := o.email
    phone := o.phone
    birthday := o.birthday
    additional_data := o.additional_data }

/-- POST /contacts/ as the caller sees it: the `create_contact` handler
followed by `response_model=Contact` filtering. -/
def create_contact_route (db : Db) (inp : ContactInput) :
    Except ApiErr ContactResp × Db :=
  ((create_contact db inp).1.map respFilter, (create_contact db inp).2)

/-- GET /contacts/id as the caller sees it. -/
def get_contact_route (db : Db) (i : Nat) : Except ApiErr ContactResp :=
  (get_contact db i).map respFilter

/-- GET /contacts/ as the caller sees it (a list of `Contact`). -/
def list_contacts_route (db : Db) (search : Option String) : List ContactResp :=
  (list_contacts db search).map respFilter

/-- PUT /contacts/id as the caller sees it. -/
def update_contact_route (db : Db) (i : Nat) (inp : ContactInput) :
    Except ApiErr ContactResp × Db :=
  ((update_contact db i inp).1.map respFilter, (update_contact db i inp).2)

/-- GET /contacts/upcoming-birthdays/ as the caller sees it. -/
def upcoming_birthdays_route (db : Db) (now : DateTime) : List ContactResp :=
  (upcoming_birthdays db now).map respFilter

/-! Concrete data used by witnesses and counterexamples. -/

/-- A sample valid input (the example of spec section 8). -/
def inpA : ContactInput :=
  { first_name := "Ivan", last_name := "Ivanov", email := "a@b.com",
    phone := "+380501234567", birthday := ⟨1990, 5, 21⟩, additional_data := none }

/-- The empty collection. -/
def db0 : Db := { records := [], nextId := 0 }

/-- An empty collection whose storage will assign identifier 5 next. -/
def db5 : Db := { records := [], nextId := 5 }

/-- A collection holding exactly the contact created from `inpA`. -/
def dbOne : Db := { records := [mkStored 0 inpA], nextId := 1 }

/-- `inpA` with a changed first name (a modifying update). -/
def inpB : ContactInput := { inpA with first_name := "Petro" }

/-- `dbOne` after replacing the fields of contact 0 with `inpB`. -/
def dbOneB : Db := { records := [mkStored 0 inpB], nextId := 1 }

/-- An input sharing `inpA`'s email but not its phone. -/
def inpDupEmail : ContactInput := { inpA with phone := "+380000000000" }

/-- An input sharing `inpA`'s phone but not its email. -/
def inpDupPhone : ContactInput := { inpA with email := "other@b.com" }

/-- A stored contact whose birthday is January 5. -/
def cJan : StoredContact := mkStored 0 { inpA with birthday := ⟨2024, 1, 5⟩ }

/-- A collection holding only `cJan`. -/
def dbJan : Db := { records := [cJan], nextId := 1 }

/-- 2024-12-30 at midnight UTC. -/
def nowDec30 : DateTime := { date := ⟨2024, 12, 30⟩, tod := 0 }

/-- A stored contact whose birthday is June 15. -/
def cJun : StoredContact := mkStored 0 { inpA with birthday := ⟨1990, 6, 15⟩ }

/-- A stored contact whose birthday is June 22. -/
def cJun22 : StoredContact := mkStored 1 { inpA with birthday := ⟨1990, 6, 22⟩ }

/-- A collection holding only `cJun`. -/
def dbJun : Db := { records := [cJun], nextId := 1 }

/-- A collection holding `cJun` and `cJun22`. -/
def dbJun2 : Db := { records := [cJun, cJun22], nextId := 2 }

/-- 2024-06-15 at noon UTC. -/
def nowJunNoon : DateTime := { date := ⟨2024, 6, 15⟩, tod := 43200 }

/-- A stored contact whose searchable fields avoid the text "a.c" but whose
first name matches it as a regular expression. -/
def cAbc : StoredContact :=
  mkStored 0 { inpA with first_name := "abc", last_name := "Zz", email := "q@w.org" }

/-- A collection holding only `cAbc`. -/
def dbAbc : Db := { records := [cAbc], nextId := 1 }

/-- Characters with a special meaning in MongoDB `$regex` patterns (PCRE
metacharacters); `create_contact` and `list_contacts` never escape them. -/
def regexSpecial : List Char :=
  ['.', '*', '+', '?', '|', '(', ')', '[', ']', '^', '$', '\\',
   Char.ofNat 123, Char.ofNat 125]

/-! Helper lemmas shared by several theorems. -/

/-- `find?` on `l ++ [x]` finds `x` when nothing in `l` satisfies the
predicate. -/
theorem find?_append_single {α : Type} {p : α → Bool} {l : List α} {x : α}
    (hl : ∀ r ∈ l, p r = false) (hx : p x = true) :
    (l ++ [x]).find? p = some x := by
  induction l with
  | nil => simp [List.find?, hx]
  | cons a as ih =>
    have ha : p a = false := hl a (List.mem_cons_self a as)
    simp only [List.cons_append]
    rw [List.find?_cons_of_neg _ (by simp [ha])]
    exact ih (fun r hr => hl r (List.mem_cons_of_mem a hr))

/-- The success path of `create_contact`: with no stored email or phone
conflict and a fresh next identifier, the handler appends the new
document and returns its projection. -/
theorem create_contact_success_eq (db : Db) (inp : ContactInput)
    (hE : ∀ r ∈ db.records, r.email ≠ inp.email)
    (hP : ∀ r ∈ db.records, r.phone ≠ inp.phone)
    (hF : ∀ r ∈ db.records, r.id ≠ db.nextId) :
    create_contact db inp =
      (Except.ok (contact_helper (mkStored db.nextId inp)),
       { records := db.records ++ [mkStored db.nextId inp], nextId := db.nextId + 1 }) := by
  have hE' : db.records.find? (fun r => decide (r.email = inp.email)) = none := by
    rw [List.find?_eq_none]; intro x hx; simpa using hE x hx
  have hP' : db.records.find? (fun r => decide (r.phone = inp.phone)) = none := by
    rw [List.find?_eq_none]; intro x hx; simpa using hP x hx
  have hfind : (db.records ++ [mkStored db.nextId inp]).find?
      (fun r => decide (r.id = db.nextId)) = some (mkStored db.nextId inp) := by
    apply find?_append_single
    · intro r hr; exact decide_eq_false (hF r hr)
    · simp [mkStored]
  simp [create_contact, hE', hP', hfind]

/-- C2 (code evaluated at the failing input): creating the sample contact
succeeds and persists a record carrying the assigned identifier, but the
HTTP response the caller receives is filtered through
`response_model=Contact`, which has no id field — creations whose storage
assigned different identifiers (0 and 5) store records with distinct ids
yet produce identical responses, so the assigned identifier never reaches
the caller. -/
theorem create_response_lacks_id :
    (create_contact_route db0 inpA).2.records = [mkStored 0 inpA] ∧
    (create_contact_route db5 inpA).2.records = [mkStored 5 inpA] ∧
    (mkStored 0 inpA).id ≠ (mkStored 5 inpA).id ∧
    (create_contact_route db0 inpA).1 = (create_contact_route db5 inpA).1 ∧
    (create_contact_route db0 inpA).1 =
      Except.ok (respFilter (contact_helper (mkStored 0 inpA))) := by decide

/-- C8: round-trip — a record accepted by `create_contact` can be fetched
by the identifier assigned at creation, and every field of the fetched
contact equals the value given at creation. -/
theorem create_then_get_roundtrip (db : Db) (inp : ContactInput)
    (hE : ∀ r ∈ db.records, r.email ≠ inp.email)
    (hP : ∀ r ∈ db.records, r.phone ≠ inp.phone)
    (hF : ∀ r ∈ db.records, r.id ≠ db.nextId) :
    ∃ out db2, create_contact db inp = (Except.ok out, db2) ∧
      get_contact db2 out.id = Except.ok out ∧
      out.first_name = inp.first_name ∧ out.last_name = inp.last_name ∧
      out.email = inp.email ∧ out.phone = inp.phone ∧
      out.birthday = inp.birthday ∧ out.additional_data = inp.additional_data := by
  refine ⟨contact_helper (mkStored db.nextId inp),
    { records := db.records ++ [mkStored db.nextId inp], nextId := db.nextId + 1 },
    create_contact_success_eq db inp hE hP hF, ?_, rfl, rfl, rfl, rfl, rfl, rfl⟩
  have hfind : (db.records ++ [mkStored db.nextId inp]).find?
      (fun r => decide (r.id = (contact_helper (mkStored db.nextId inp)).id))
      = some (mkStored db.nextId inp) := by
    apply find?_append_single
    · intro r hr; exact decide_eq_false (hF r hr)
    · simp [mkStored, contact_helper]
  simp [get_contact, hfind]

/-- Witness for C8 at the empty collection and the sample input. -/
theorem create_then_get_roundtrip_witness :
    (∀ r ∈ db0.records, r.email ≠ inpA.email) ∧
    (∀ r ∈ db0.records, r.phone ≠ inpA.phone) ∧
    (∀ r ∈ db0.records, r.id ≠ db0.nextId) ∧
    (∃ out db2, create_contact db0 inpA = (Except.ok out, db2) ∧
      get_contact db2 out.id = Except.ok out ∧
      out.first_name = inpA.first_name ∧ out.last_name = inpA.last_name ∧
      out.email = inpA.email ∧ out.phone = inpA.phone ∧
      out.birthday = inpA.birthday ∧ out.additional_data = inpA.additional_data) :=
  ⟨by simp [db0], by simp [db0], by simp [db0],
   create_then_get_roundtrip db0 inpA (by simp [db0]) (by simp [db0]) (by simp [db0])⟩

/-- C5: `create_contact` rejects a duplicate email with the email
conflict, rejects a duplicate phone (when the email is free) with the
phone conflict, and in both cases leaves the stored collection
unchanged. -/
theorem create_conflict_rejects (db : Db) (inp : ContactInput) :
    ((∃ r ∈ db.records, r.email = inp.email) →
      create_contact db inp = (Except.error ApiErr.emailInUse, db)) ∧
    ((∀ r ∈ db.records, r.email ≠ inp.email) →
      (∃ r ∈ db.records, r.phone = inp.phone) →
      create_contact db inp = (Except.error ApiErr.phoneInUse, db)) := by
  constructor
  · rintro ⟨r, hr, he⟩
    have hE : (db.records.find? (fun r => decide (r.email = inp.email))).isSome := by
      rw [List.find?_isSome]
      exact ⟨r, hr, by simp [he]⟩
    simp [create_contact, hE]
  · rintro hE ⟨r, hr, hp⟩
    have hE' : db.records.find? (fun r => decide (r.email = inp.email)) = none := by
      rw [List.find?_eq_none]; intro x hx; simpa using hE x hx
    have hP : (db.records.find? (fun r => decide (r.phone = inp.phone))).isSome := by
      rw [List.find?_isSome]
      exact ⟨r, hr, by simp [hp]⟩
    simp [create_contact, hE', hP]

/-- Witness for C5: against the one-contact collection, a duplicate email
and a duplicate phone are both rejected with the collection unchanged. -/
theorem create_conflict_rejects_witness :
    (∃ r ∈ dbOne.records, r.email = inpDupEmail.email) ∧
    create_contact dbOne inpDupEmail = (Except.error ApiErr.emailInUse, dbOne) ∧
    (∀ r ∈ dbOne.records, r.email ≠ inpDupPhone.email) ∧
    (∃ r ∈ dbOne.records, r.phone = inpDupPhone.phone) ∧
    create_contact dbOne inpDupPhone = (Except.error ApiErr.phoneInUse, dbOne) :=
  ⟨by decide, (create_conflict_rejects dbOne inpDupEmail).1 (by decide),
   by decide, by decide,
   (create_conflict_rejects dbOne inpDupPhone).2 (by decide) (by decide)⟩

/-- C10: a query with the empty search string takes the same match-all
branch as an absent search parameter (Python `if search:` is false for
the empty string), so the listing is identical. -/
theorem list_empty_search_eq_none (db : Db) :
    list_contacts db (some "") = list_contacts db none := rfl

/-- C1, evaluated at the failing input: with today = 2024-12-30 and a
stored birthday of January 5 the query returns nothing, although the
birthday projected onto the next year (2025-01-05) lies inside the 7-day
window. -/
theorem upcoming_year_boundary_missing :
    upcoming_birthdays dbJan nowDec30 = [] ∧
    rataDie nowDec30.date ≤
      dateFromPartsDay (nowDec30.date.year + 1) cJan.birthday.month cJan.birthday.day ∧
    dateFromPartsDay (nowDec30.date.year + 1) cJan.birthday.month cJan.birthday.day ≤
      rataDie nowDec30.date + 7 := by decide

/-- C3, evaluated at the failing input: contact 0 is stored (`get_contact`
succeeds), yet updating it to its current field values answers 404,
because a no-op `$set` leaves `modified_count` at 0. -/
theorem update_unchanged_returns_notFound :
    get_contact dbOne 0 = Except.ok (contact_helper (mkStored 0 inpA)) ∧
    update_contact dbOne 0 inpA = (Except.error ApiErr.notFound, dbOne) := by decide

/-- Under distinct identifiers, dropping the first document with id `i`
leaves no document with id `i`. -/
theorem eraseFirstById_id_ne {l : List StoredContact} {i : Nat}
    (hnd : (l.map (fun r => r.id)).Nodup) :
    ∀ r ∈ eraseFirstById i l, r.id ≠ i := by
  induction l with
  | nil => intro r hr; simp [eraseFirstById] at hr
  | cons a as ih =>
    rw [List.map_cons, List.nodup_cons] at hnd
    obtain ⟨hna, hnd'⟩ := hnd
    intro r hr
    by_cases ha : a.id = i
    · rw [eraseFirstById, if_pos ha] at hr
      intro hri
      apply hna
      have hmem : r.id ∈ as.map (fun r => r.id) := List.mem_map_of_mem _ hr
      rwa [hri, ← ha] at hmem
    · rw [eraseFirstById, if_neg ha] at hr
      rcases List.mem_cons.mp hr with hra | hras
      · rw [hra]; exact ha
      · exact ih hnd' r hras

/-- C7: deleting a stored contact succeeds, and afterwards `get_contact`
answers 404 and no listing or birthday query returns a contact with the
deleted identifier. -/
theorem delete_then_reads_miss (db : Db) (i : Nat)
    (hex : (db.records.find? (fun r => decide (r.id = i))).isSome = true)
    (hnd : (db.records.map (fun r => r.id)).Nodup) :
    delete_contact db i =
      (Except.ok (), { records := eraseFirstById i db.records, nextId := db.nextId }) ∧
    get_contact { records := eraseFirstById i db.records, nextId := db.nextId } i
      = Except.error ApiErr.notFound ∧
    (∀ out ∈ list_contacts
        { records := eraseFirstById i db.records, nextId := db.nextId } none,
      out.id ≠ i) ∧
    (∀ now : DateTime, ∀ out ∈ upcoming_birthdays
        { records := eraseFirstById i db.records, nextId := db.nextId } now,
      out.id ≠ i) := by
  have hne := eraseFirstById_id_ne (i := i) hnd
  refine ⟨by simp [delete_contact, hex], ?_, ?_, ?_⟩
  · have hnone : (eraseFirstById i db.records).find? (fun r => decide (r.id = i)) = none := by
      rw [List.find?_eq_none]; intro x hx; simpa using hne x hx
    simp [get_contact, hnone]
  · intro out hout
    simp only [list_contacts, List.filter_true] at hout
    rcases List.mem_map.mp hout with ⟨r, hr, hout'⟩
    rw [← hout']
    simpa [contact_helper] using hne r hr
  · intro now out hout
    simp only [upcoming_birthdays] at hout
    rcases List.mem_map.mp hout with ⟨r, hr, hout'⟩
    rw [← hout']
    simpa [contact_helper] using hne r (List.mem_filter.mp hr).1

/-- Witness for C7 at the one-contact collection. -/
theorem delete_then_reads_miss_witness :
    ((dbOne.records.find? (fun r => decide (r.id = 0))).isSome = true) ∧
    ((dbOne.records.map (fun r => r.id)).Nodup) ∧
    delete_contact dbOne 0 =
      (Except.ok (), { records := eraseFirstById 0 dbOne.records, nextId := dbOne.nextId }) :=
  ⟨by decide, by decide, (delete_then_reads_miss dbOne 0 (by decide) (by decide)).1⟩

/-- The success shape of `update_one`'s `$set` on the first matching
document: `setFields` rewrites exactly the position `find?` located, and
re-fetching by id returns the rewritten document. -/
theorem setFields_eq_set {l : List StoredContact} {i : Nat} {c : StoredContact}
    (h : l.find? (fun r => decide (r.id = i)) = some c) (inp : ContactInput) :
    ∃ k, l[k]? = some c ∧ c.id = i ∧
      setFields i inp l = l.set k (mkStored i inp) ∧
      (setFields i inp l).find? (fun r => decide (r.id = i)) = some (mkStored i inp) := by
  induction l with
  | nil => simp [List.find?] at h
  | cons a as ih =>
    by_cases ha : a.id = i
    · have hca : c = a := by
        rw [List.find?_cons_of_pos _ (by simp [ha])] at h
        exact (Option.some.inj h).symm
      refine ⟨0, by simp [hca], by rw [hca]; exact ha, ?_, ?_⟩
      · simp only [setFields, if_pos ha, ha]
        simp
      · simp only [setFields, if_pos ha, ha]
        exact List.find?_cons_of_pos _ (by simp [mkStored])
    · rw [List.find?_cons_of_neg _ (by simp [ha])] at h
      obtain ⟨k, hk, hci, hset, hfind⟩ := ih h
      refine ⟨k + 1, by simpa using hk, hci, ?_, ?_⟩
      · simp only [setFields, if_neg ha, hset]
        simp
      · simp only [setFields, if_neg ha]
        rw [List.find?_cons_of_neg _ (by simp [ha]), hfind]

/-- C9: a successful update keeps the next identifier and the record's
identifier, replaces exactly the located record's mutable fields with the
input, returns that rewritten record, and leaves every other position of
the collection unchanged. -/
theorem update_success_frame (db : Db) (i : Nat) (inp : ContactInput)
    (out : ContactOut) (db2 : Db)
    (h : update_contact db i inp = (Except.ok out, db2)) :
    db2.nextId = db.nextId ∧
    out = contact_helper (mkStored i inp) ∧
    ∃ k c, db.records[k]? = some c ∧ c.id = i ∧
      db2.records = db.records.set k (mkStored i inp) ∧
      ∀ m r, m ≠ k → db.records[m]? = some r → db2.records[m]? = some r := by
  simp only [update_contact] at h
  split at h
  · simp at h
  · split at h
    · simp at h
    · split at h
      · simp at h
      · next c hc =>
        split at h
        · simp at h
        · split at h
          · next c' hc' =>
            injection h with h1 h2
            injection h1 with h1
            obtain ⟨k, hk, hci, hset, hfind⟩ := setFields_eq_set hc inp
            have hcm : c' = mkStored i inp := by
              rw [hfind] at hc'
              exact Option.some.inj hc'.symm
            refine ⟨by rw [← h2], ?_, k, c, hk, hci, ?_, ?_⟩
            · rw [← h1, hcm]
            · rw [← h2]
              exact hset
            · intro m r hm hmr
              rw [← h2]
              show (setFields i inp db.records)[m]? = some r
              rw [hset, List.getElem?_set_ne (Ne.symm hm)]
              exact hmr
          · simp at h

/-- Witness for C9: updating contact 0 of the one-contact collection to
the modified input succeeds, and the theorem applies. -/
theorem update_success_frame_witness :
    update_contact dbOne 0 inpB = (Except.ok (contact_helper (mkStored 0 inpB)), dbOneB) ∧
    dbOneB.nextId = dbOne.nextId ∧
    contact_helper (mkStored 0 inpB) = contact_helper (mkStored 0 inpB) :=
  ⟨by decide, (update_success_frame dbOne 0 inpB (contact_helper (mkStored 0 inpB)) dbOneB
      (by decide)).1, rfl⟩

/-- C4 counterexample: the stored birthday projects to exactly today
(June 15), yet a query at noon returns nothing — the code compares the
projected midnight datetime against the full current datetime. -/
theorem upcoming_today_noon_excluded :
    (∃ c ∈ dbJun.records,
      dateFromPartsDay nowJunNoon.date.year c.birthday.month c.birthday.day
        = rataDie nowJunNoon.date) ∧
    nowJunNoon.tod ≠ 0 ∧
    upcoming_birthdays dbJun nowJunNoon = [] := by decide

/-- C4 (amended): the aggregation window, read against the full query
datetime.  A projection to exactly today + 7 days is always included; a
projection to exactly today is included when the query runs at exactly
midnight UTC; and every returned contact comes from a stored record whose
projection lies in [today, today + 7] — strictly after today unless the
query time-of-day is zero — so a projection more than 7 days out is never
returned. -/
theorem upcoming_window_boundaries (db : Db) (now : DateTime)
    (ht : now.tod < 86400) :
    (∀ c ∈ db.records,
      dateFromPartsDay now.date.year c.birthday.month c.birthday.day
        = rataDie now.date + 7 →
      contact_helper c ∈ upcoming_birthdays db now) ∧
    (now.tod = 0 → ∀ c ∈ db.records,
      dateFromPartsDay now.date.year c.birthday.month c.birthday.day
        = rataDie now.date →
      contact_helper c ∈ upcoming_birthdays db now) ∧
    (∀ out ∈ upcoming_birthdays db now, ∃ c, c ∈ db.records ∧
      out = contact_helper c ∧
      rataDie now.date ≤
        dateFromPartsDay now.date.year c.birthday.month c.birthday.day ∧
      dateFromPartsDay now.date.year c.birthday.month c.birthday.day ≤
        rataDie now.date + 7 ∧
      (now.tod = 0 ∨ rataDie now.date <
        dateFromPartsDay now.date.year c.birthday.month c.birthday.day)) := by
  refine ⟨?_, ?_, ?_⟩
  · intro c hc hproj
    apply List.mem_map_of_mem
    apply List.mem_filter.mpr
    refine ⟨hc, ?_⟩
    simp only [inWindow, projSec, DateTime.toSec, decide_eq_true_eq]
    omega
  · intro h0 c hc hproj
    apply List.mem_map_of_mem
    apply List.mem_filter.mpr
    refine ⟨hc, ?_⟩
    simp only [inWindow, projSec, DateTime.toSec, decide_eq_true_eq]
    omega
  · intro out hout
    simp only [upcoming_birthdays] at hout
    rcases List.mem_map.mp hout with ⟨c, hcf, hce⟩
    obtain ⟨hc, hw⟩ := List.mem_filter.mp hcf
    refine ⟨c, hc, hce.symm, ?_⟩
    simp only [inWindow, projSec, DateTime.toSec, decide_eq_true_eq] at hw
    obtain ⟨hw1, hw2⟩ := hw
    refine ⟨by omega, by omega, by omega⟩

/-- Witness for C4 (amended) at the June collection and a noon query. -/
theorem upcoming_window_boundaries_witness :
    nowJunNoon.tod < 86400 ∧
    (∀ c ∈ dbJun2.records,
      dateFromPartsDay nowJunNoon.date.year c.birthday.month c.birthday.day
        = rataDie nowJunNoon.date + 7 →
      contact_helper c ∈ upcoming_birthdays dbJun2 nowJunNoon) :=
  ⟨by decide, (upcoming_window_boundaries dbJun2 nowJunNoon (by decide)).1⟩

/-- C6 counterexample: the search text "a.c" occurs in no searchable
field of the stored contact as a substring, yet the contact is returned —
the text is passed to `$regex` unescaped, and `.` matches `b`. -/
theorem list_search_metachar_mismatch :
    list_contacts dbAbc (some "a.c") = [contact_helper cAbc] ∧
    substrCI "a.c".data cAbc.first_name.data = false ∧
    substrCI "a.c".data cAbc.last_name.data = false ∧
    substrCI "a.c".data cAbc.email.data = false := by decide

/-- The empty pattern is a substring of every text. -/
theorem substrCI_nil (cs : List Char) : substrCI [] cs = true := by
  cases cs <;> simp [substrCI, startsWithCI]

/-- With no metacharacter in the search text, every parsed token is a
literal. -/
theorem parsePat_all_lit {s : String} (h : ∀ c ∈ s.data, c ∉ regexSpecial) :
    parsePat s = s.data.map RegexTok.lit := by
  unfold parsePat
  apply List.map_congr_left
  intro a ha
  have : a ≠ '.' := by
    intro hdot
    exact h a ha (by rw [hdot]; simp [regexSpecial])
  simp [this]

/-- A literal-token pattern against a prefix is the case-insensitive
prefix test. -/
theorem matchHere_lit (l : List Char) (cs : List Char) :
    matchHere (l.map RegexTok.lit) cs = startsWithCI l cs := by
  induction l generalizing cs with
  | nil => cases cs <;> simp [matchHere, startsWithCI]
  | cons a as ih =>
    cases cs with
    | nil => simp [matchHere, startsWithCI]
    | cons b bs => simp [matchHere, startsWithCI, tokMatch, ih]

/-- A literal-token pattern searched anywhere in the text is the
case-insensitive substring test. -/
theorem regexFind_lit (l : List Char) (cs : List Char) :
    regexFind (l.map RegexTok.lit) cs = substrCI l cs := by
  induction cs with
  | nil => simp [regexFind, substrCI, matchHere_lit]
  | cons b bs ih => simp [regexFind, substrCI, matchHere_lit, ih]

/-- C6 (amended): when the search text contains no regex metacharacter,
the listing is exactly the stored contacts one of whose first name, last
name or email contains the text as a case-insensitive substring.  (For
general text the unescaped `$regex` interprets metacharacters, as the
counterexample shows.) -/
theorem list_search_literal_text (db : Db) (s : String)
    (hlit : ∀ c ∈ s.data, c ∉ regexSpecial) :
    list_contacts db (some s) =
      (db.records.filter (fun r =>
        substrCI s.data r.first_name.data || substrCI s.data r.last_name.data
          || substrCI s.data r.email.data)).map contact_helper := by
  simp only [list_contacts]
  congr 1
  apply List.filter_congr
  intro c hc
  by_cases hs : s.isEmpty
  · have hdata : s.data = [] := by
      rw [(String.isEmpty_iff s).mp hs]
    simp [hs, hdata, substrCI_nil]
  · simp only [hs, if_neg, Bool.false_eq_true, not_false_eq_true, if_false]
    simp [searchPred, parsePat_all_lit hlit, regexFind_lit]

/-- Witness for C6 (amended) at a metacharacter-free search text. -/
theorem list_search_literal_text_witness :
    (∀ c ∈ "van".data, c ∉ regexSpecial) ∧
    list_contacts dbAbc (some "van") =
      (dbAbc.records.filter (fun r =>
        substrCI "van".data r.first_name.data
          || substrCI "van".data r.last_name.data
          || substrCI "van".data r.email.data)).map contact_helper :=
  ⟨by decide, list_search_literal_text dbAbc "van" (by decide)⟩
